import Mathlib

/-!
Shallow embedding of the copilot-tower pull-request dashboard.

The JavaScript sources are embedded as executable Lean definitions:

* `PRData` mirrors the raw GraphQL pull-request node consumed by the
  `PullRequest` wrapper class; the derived predicates (`hasBeenApproved`,
  `waitingForReview`, `isReadyToBeMerged`, `isBlockedByOther`, ...) are
  translated from the current `PullRequest` class.
* `prCompare` / `sortPullRequests` embed the comparator and the stable
  `Array.prototype.sort` call of `GitHubPRDashboard.displayPullRequests`
  (modelled by `List.mergeSort`, a stable sort consistent with the
  comparator; `updatedAt` is held as the epoch-millisecond value of the
  ISO timestamp, matching the JS `new Date(a) - new Date(b)` arithmetic).
* `fetchFailedChecks` / `loadCIStatusForPR` embed the CI-enrichment path;
  effectful HTTP calls become explicit `Except`-valued inputs.
* `getCachedOrganizations` / `getUserOrganizations` embed the 24-hour
  organization cache of `GitHubAuth`, with the single-key `localStorage`
  slot passed as explicit state.
* `handleRerunFailedJobs` embeds the multi-step re-run-failed-jobs command.
* `hasBeenApprovedLegacy` embeds the older review-list re-derivation
  variant of the approval logic from `script.js`.
-/

namespace CopilotTower

/-- A review node from the GraphQL `reviews(first: 10)` list:
`{ state, author { login } }`. -/
structure Review where
  state : String
  authorLogin : String
deriving DecidableEq

/-- The most recent commit node from `commits(last: 1)`:
`{ commit { oid, statusCheckRollup { state } } }`; the rollup may be null. -/
structure CommitNode where
  oid : String
  statusCheckRollup : Option String
deriving DecidableEq

/-- One raw pull-request record as wrapped by the `PullRequest` class.
`updatedAt` is the epoch-millisecond value of the ISO-8601 timestamp;
`reviewDecision` is the nullable GraphQL enum carried as a string;
`assignees` is the list of assignee logins. -/
structure PRData where
  title : String
  isDraft : Bool
  mergeable : String
  mergeStateStatus : String
  updatedAt : Nat
  reviewDecision : Option String
  assignees : List String
  reviews : List Review
  commits : List CommitNode
deriving DecidableEq

/-- `get isNotDraft() { return !this.isDraft; }` -/
def isNotDraft (pr : PRData) : Bool :=
  !pr.isDraft

/-- `hasChangesRequested()`: returns true when `reviewDecision ===
"CHANGES_REQUESTED"`, otherwise false (the review-list re-derivation is
commented out in the source). -/
def hasChangesRequested (pr : PRData) : Bool :=
  if pr.reviewDecision = some "CHANGES_REQUESTED" then true
  else false

/-- `hasBeenApproved()`: false when changes are requested, otherwise
`reviewDecision === "APPROVED"` (the review-list re-derivation is commented
out in the source). -/
def hasBeenApproved (pr : PRData) : Bool :=
  if hasChangesRequested pr then false
  else pr.reviewDecision = some "APPROVED"

/-- `waitingForReview()` from the current `PullRequest` class. -/
def waitingForReview (pr : PRData) : Bool :=
  isNotDraft pr && !hasBeenApproved pr && !hasChangesRequested pr &&
    pr.reviewDecision = some "REVIEW_REQUIRED"

/-- `hasNoConflicts()`: mergeability is `MERGEABLE`. -/
def hasNoConflicts (pr : PRData) : Bool :=
  pr.mergeable = "MERGEABLE"

/-- `isReadyToBeMerged()`. -/
def isReadyToBeMerged (pr : PRData) : Bool :=
  isNotDraft pr && hasBeenApproved pr && hasNoConflicts pr

/-- `isBlockedByOther()`. -/
def isBlockedByOther (pr : PRData) : Bool :=
  isNotDraft pr && waitingForReview pr && hasNoConflicts pr

/-- `get latestCommitSha()`: `commits.nodes[0].commit.oid`, or null when no
commit is present. -/
def latestCommitSha (pr : PRData) : Option String :=
  match pr.commits with
  | [] => none
  | c :: _ => some c.oid

/-- `getStatusCheckRollup()`: `commits.nodes[0].commit.statusCheckRollup`,
null when no commit is present or when the rollup itself is null. -/
def getStatusCheckRollup (pr : PRData) : Option String :=
  match pr.commits with
  | [] => none
  | c :: _ => c.statusCheckRollup

/-- The comparator passed to `pullRequests.sort` in
`GitHubPRDashboard.displayPullRequests`: ready-to-merge first, blocked-by-
other last, then `updatedAt` ascending via date subtraction. -/
def prCompare (a b : PRData) : Int :=
  if isReadyToBeMerged a && !isReadyToBeMerged b then -1
  else if !isReadyToBeMerged a && isReadyToBeMerged b then 1
  else if isBlockedByOther a && !isBlockedByOther b then 1
  else if !isBlockedByOther a && isBlockedByOther b then -1
  else (a.updatedAt : Int) - (b.updatedAt : Int)

/-- The non-positive half of the comparator, the order realised by the
stable JS sort. -/
def prLe (a b : PRData) : Bool :=
  prCompare a b ≤ 0

/-- The sort applied to the batch in `displayPullRequests`.
`Array.prototype.sort` is stable and, for a consistent comparator such as
`prCompare`, produces the unique stable order consistent with it, which is
what `List.mergeSort` computes. -/
def sortPullRequests (prs : List PRData) : List PRData :=
  prs.mergeSort prLe

/-- The three-tier priority order between two adjacent output positions:
ready items precede non-ready ones; at equal readiness, blocked items do
not precede unblocked ones; at equal readiness and blockedness, `updatedAt`
is ascending. -/
def triagePrecedes (a b : PRData) : Prop :=
  (isReadyToBeMerged b = true → isReadyToBeMerged a = true) ∧
  (isReadyToBeMerged a = isReadyToBeMerged b →
    isBlockedByOther a = true → isBlockedByOther b = true) ∧
  (isReadyToBeMerged a = isReadyToBeMerged b →
    isBlockedByOther a = isBlockedByOther b →
    a.updatedAt ≤ b.updatedAt)

/-- One entry of the REST `check-runs` response:
`{ name, conclusion, html_url, details_url }`. -/
structure CheckRun where
  name : String
  conclusion : String
  htmlUrl : Option String
  detailsUrl : Option String
deriving DecidableEq

/-- One element of the failed-checks list built by
`GitHubAPI.fetchFailedChecks`: `{ name, url }`. -/
structure FailedCheck where
  name : String
  url : String
deriving DecidableEq

/-- The common whitespace characters matched by the regex class `\s` in
`/^rails-ci\s\/ /`. -/
def isJsWhitespace (c : Char) : Bool :=
  c = ' ' || c = '\t' || c = '\n' || c = '\r' || c = '\x0b' || c = '\x0c'

/-- `checkName.replace(/^rails-ci\s\/ /, "")`: strip a leading `rails-ci`,
one whitespace character, and `/ ` from the check name; otherwise the name
is unchanged. -/
def stripRailsCiPrefix (s : String) : String :=
  match s.toList with
  | 'r' :: 'a' :: 'i' :: 'l' :: 's' :: '-' :: 'c' :: 'i' :: w :: '/' :: ' ' :: rest =>
    if isJsWhitespace w then String.mk rest else s
  | _ => s

/-- JavaScript `a || dflt` on a nullable string: the default is used when
the value is null/undefined or the empty string (falsy). -/
def jsStringOr (a : Option String) (dflt : String) : String :=
  match a with
  | some s => if s = "" then dflt else s
  | none => dflt

/-- `checkRun.html_url || checkRun.details_url || "#"`. -/
def checkRunUrl (cr : CheckRun) : String :=
  jsStringOr cr.htmlUrl (jsStringOr cr.detailsUrl "#")

/-- The `data.check_runs.forEach` loop of `GitHubAPI.fetchFailedChecks`:
push `{ name (stripped), url }` for each check run whose conclusion is
`"failure"`. -/
def collectFailedChecks : List CheckRun → List FailedCheck
  | [] => []
  | cr :: rest =>
    if cr.conclusion = "failure" then
      { name := stripRailsCiPrefix cr.name, url := checkRunUrl cr } ::
        collectFailedChecks rest
    else
      collectFailedChecks rest

/-- `GitHubAPI.fetchFailedChecks(owner, repo, sha)`: the HTTP call either
throws (transport error or a non-OK response, both raised by `query`) —
modelled as `Except.error` and caught, yielding `[]` — or returns a JSON
body whose optional `check_runs` array drives the collection loop. -/
def fetchFailedChecks (response : Except String (Option (List CheckRun))) :
    List FailedCheck :=
  match response with
  | .error _ => []
  | .ok none => []
  | .ok (some runs) => collectFailedChecks runs

/-- The spec-level CI status enum; each `loadCIStatusForPR` branch below is
tagged with the constructor matching its cell text (`"✅ Passed"` ↦
`SUCCESS`, `"❌ Failed"` ↦ `FAILURE`, `"💥 Error"` ↦ `ERROR`,
`"🟡 Running"` ↦ `PENDING`, the `"No CI"` / missing-sha texts ↦ `NONE`). -/
inductive CIState where
  | NONE
  | SUCCESS
  | FAILURE
  | ERROR
  | PENDING
deriving DecidableEq

/-- The `ciStatus` object built by `GitHubPRDashboard.loadCIStatusForPR`:
a display state, the CSS class string, and the failed-checks list. -/
structure CICell where
  state : CIState
  cssClass : String
  failedChecks : List FailedCheck
deriving DecidableEq

/-- `GitHubPRDashboard.loadCIStatusForPR` for one pull request. The
secondary REST check-runs call is passed in as `checkRunsResponse`; the
returned flag records whether that call was issued (the `FAILURE`/`ERROR`
switch branch is the only one that awaits `fetchFailedChecks`). -/
def loadCIStatusForPR (pr : PRData)
    (checkRunsResponse : Except String (Option (List CheckRun))) :
    CICell × Bool :=
  match latestCommitSha pr with
  | none =>
    -- "sha latest commit not found", class "neutral"
    ({ state := .NONE, cssClass := "neutral", failedChecks := [] }, false)
  | some _ =>
    match getStatusCheckRollup pr with
    | none =>
      -- the initial "No CI" cell is kept when there is no rollup
      ({ state := .NONE, cssClass := "neutral", failedChecks := [] }, false)
    | some rollupState =>
      if rollupState = "SUCCESS" then
        ({ state := .SUCCESS, cssClass := "success", failedChecks := [] }, false)
      else if rollupState = "FAILURE" || rollupState = "ERROR" then
        -- the only branch issuing the REST call; text "❌ Failed" / "💥 Error"
        ({ state := if rollupState = "FAILURE" then .FAILURE else .ERROR,
           cssClass := "error",
           failedChecks := fetchFailedChecks checkRunsResponse }, true)
      else if rollupState = "PENDING" then
        ({ state := .PENDING, cssClass := "warning", failedChecks := [] }, false)
      else
        -- default switch branch keeps the initial "No CI" cell
        ({ state := .NONE, cssClass := "neutral", failedChecks := [] }, false)

/-- The per-item CI enrichment pass of `displayPullRequests`: each row gets
`loadCIStatusForPR` applied to its own pull request and its own check-runs
response, independently of the other rows. -/
def enrichBatch
    (batch : List (PRData × Except String (Option (List CheckRun)))) :
    List CICell :=
  batch.map fun item => (loadCIStatusForPR item.1 item.2).1

/-- The classification rendered by `GitHubPRDashboard.createStatusCell`. -/
inductive StatusBadge where
  | draft
  | approved
  | changesRequested
  | waitingForReview
  | empty
deriving DecidableEq

/-- `GitHubPRDashboard.createStatusCell`: drafts get the draft badge before
any review-decision check; otherwise approved, changes-requested and
waiting-for-review are tried in that order, else the cell stays empty. -/
def createStatusCell (pr : PRData) : StatusBadge :=
  if pr.isDraft then .draft
  else if hasBeenApproved pr then .approved
  else if hasChangesRequested pr then .changesRequested
  else if waitingForReview pr then .waitingForReview
  else .empty

/-- `hasChangesRequested()` from the older `script.js` `PullRequest`
variant: any `CHANGES_REQUESTED` review, otherwise any `COMMENTED` review. -/
def hasChangesRequestedLegacy (pr : PRData) : Bool :=
  if pr.reviews.any (fun review => review.state = "CHANGES_REQUESTED") then true
  else pr.reviews.any (fun review => review.state = "COMMENTED")

/-- `hasBeenApproved()` from the older `script.js` `PullRequest` variant:
some `APPROVED` review whose author is not an assignee, and no changes
requested. -/
def hasBeenApprovedLegacy (pr : PRData) : Bool :=
  (pr.reviews.any fun review =>
    review.state = "APPROVED" &&
      !(pr.assignees.any fun assignee => assignee = review.authorLogin)) &&
  !hasChangesRequestedLegacy pr

/-- An organization record; only the login matters to the cache model. -/
structure Org where
  login : String
deriving DecidableEq

/-- The `github_orgs_cache` wrapper written by
`GitHubAuth.cacheOrganizations`. -/
structure OrgsCacheEntry where
  organizations : List Org
  cachedAt : Nat
  expiresAt : Nat
deriving DecidableEq

/-- The 24-hour TTL constant `24 * 60 * 60 * 1000` (milliseconds). -/
def cacheTTL : Nat := 24 * 60 * 60 * 1000

/-- `GitHubAuth.cacheOrganizations`: build the cache wrapper with
`expiresAt = Date.now() + 24h`. -/
def cacheOrganizations (orgs : List Org) (now : Nat) : OrgsCacheEntry :=
  { organizations := orgs, cachedAt := now, expiresAt := now + cacheTTL }

/-- `GitHubAuth.getCachedOrganizations`: the single `localStorage` slot is
explicit state; returns the value read together with the slot afterwards.
A fresh entry (`now < expiresAt`) is returned and kept; an expired entry is
removed (`localStorage.removeItem`) and the read misses. -/
def getCachedOrganizations (store : Option OrgsCacheEntry) (now : Nat) :
    Option (List Org) × Option OrgsCacheEntry :=
  match store with
  | none => (none, none)
  | some data =>
    if now < data.expiresAt then (some data.organizations, some data)
    else (none, none)

/-- `GitHubAuth.getUserOrganizations`: cache first; on a miss issue the
live fetch, cache and return the result; on a fetch error show the error
and return `[]` (the expired entry stays deleted). -/
def getUserOrganizations (store : Option OrgsCacheEntry) (now : Nat)
    (fetchOrgs : Except String (List Org)) :
    List Org × Option OrgsCacheEntry :=
  match getCachedOrganizations store now with
  | (some cached, store') => (cached, store')
  | (none, store') =>
    match fetchOrgs with
    | .ok orgs => (orgs, some (cacheOrganizations orgs now))
    | .error _ => ([], store')

/-- A workflow run from the REST `actions/runs` listing; only the id and
the conclusion drive `handleRerunFailedJobs`. -/
structure WorkflowRun where
  id : Nat
  conclusion : String
deriving DecidableEq

/-- The outcome reported by `handleRerunFailedJobs`: the three button
states (no failed jobs; all `count` re-runs succeeded; only `succeeded` of
`total` re-runs succeeded). -/
inductive RerunReport where
  | noFailedJobs
  | allSucceeded (count : Nat)
  | someFailed (succeeded : Nat) (total : Nat)
deriving DecidableEq

/-- The button label for each report, as set in `handleRerunFailedJobs`. -/
def rerunButtonText : RerunReport → String
  | .noFailedJobs => "✅ No Failed Jobs"
  | .allSucceeded count =>
    s!"✅ Re-ran {count} job" ++ (if count > 1 then "s" else "")
  | .someFailed succeeded total => s!"⚠️ {succeeded}/{total} succeeded"

/-- The sequential `for (const run of failedRuns)` loop: await the re-run
call for each run in order, counting successes. Returns the success count
and the run ids invoked, in invocation order. -/
def rerunLoop (rerunFailedJobsCall : WorkflowRun → Bool) :
    List WorkflowRun → Nat × List Nat
  | [] => (0, [])
  | run :: rest =>
    let ok := rerunFailedJobsCall run
    let tail := rerunLoop rerunFailedJobsCall rest
    ((if ok then 1 else 0) + tail.1, run.id :: tail.2)

/-- `GitHubPRDashboard.handleRerunFailedJobs`: filter the workflow runs to
conclusions `failure`/`cancelled`, bail out when none match, otherwise
re-run each matching run sequentially and report either full or fractional
success. The outcome of each remote re-run call is the oracle
`rerunFailedJobsCall` (the JS helper returns a boolean). Also returns the
ids invoked, in order. -/
def handleRerunFailedJobs (workflowRuns : List WorkflowRun)
    (rerunFailedJobsCall : WorkflowRun → Bool) : RerunReport × List Nat :=
  let failedRuns := workflowRuns.filter fun run =>
    run.conclusion = "failure" || run.conclusion = "cancelled"
  if failedRuns.length = 0 then (.noFailedJobs, [])
  else
    let outcome := rerunLoop rerunFailedJobsCall failedRuns
    if outcome.1 = failedRuns.length then (.allSucceeded outcome.1, outcome.2)
    else (.someFailed outcome.1 failedRuns.length, outcome.2)

/-- A neutral baseline record used to build the concrete test records. -/
def basePR : PRData :=
  { title := "Example"
    isDraft := false
    mergeable := "MERGEABLE"
    mergeStateStatus := "CLEAN"
    updatedAt := 0
    reviewDecision := none
    assignees := []
    reviews := []
    commits := [] }

/-- Item A of the sort scenario: ready to merge, updated at t1 = 200. -/
def prA : PRData :=
  { basePR with title := "A", reviewDecision := some "APPROVED", updatedAt := 200 }

/-- Item B of the sort scenario: ready to merge, updated at t2 = 100 < t1. -/
def prB : PRData :=
  { basePR with title := "B", reviewDecision := some "APPROVED", updatedAt := 100 }

/-- Item C of the sort scenario: neither ready nor blocked, updated at t3 = 300. -/
def prC : PRData :=
  { basePR with title := "C", updatedAt := 300 }

/-- A record whose last commit has rollup state `FAILURE`. -/
def examplePR : PRData :=
  { basePR with commits := [{ oid := "abc123", statusCheckRollup := some "FAILURE" }] }

/-- The two check runs of the CI-enrichment scenario. -/
def exampleCheckRuns : List CheckRun :=
  [{ name := "rails-ci / lint", conclusion := "failure",
     htmlUrl := some "https://ci.example/lint", detailsUrl := none },
   { name := "build", conclusion := "success",
     htmlUrl := some "https://ci.example/build", detailsUrl := none }]

/-- The successful check-runs response carrying `exampleCheckRuns`. -/
def exampleResp : Except String (Option (List CheckRun)) :=
  .ok (some exampleCheckRuns)

/-- A draft record whose review decision is `APPROVED`. -/
def draftApprovedPR : PRData :=
  { basePR with isDraft := true, reviewDecision := some "APPROVED" }

/-- A draft record with conflicting mergeability and `APPROVED` decision. -/
def draftConflictingPR : PRData :=
  { basePR with
      isDraft := true
      mergeable := "CONFLICTING"
      reviewDecision := some "APPROVED" }

/-- A record whose only approval review is authored by an assignee while
the API-provided review decision is `APPROVED`. -/
def assigneeApprovedPR : PRData :=
  { basePR with
      reviewDecision := some "APPROVED"
      assignees := ["alice"]
      reviews := [{ state := "APPROVED", authorLogin := "alice" }] }

/-- Three workflow runs with failed or cancelled conclusions. -/
def exampleRuns : List WorkflowRun :=
  [{ id := 101, conclusion := "failure" },
   { id := 102, conclusion := "failure" },
   { id := 103, conclusion := "cancelled" }]

/-- A re-run oracle that fails exactly for run 102. -/
def exampleRerunCall (run : WorkflowRun) : Bool :=
  run.id != 102

/-- A concrete organization list for the cache scenario. -/
def acmeOrgs : List Org :=
  [{ login := "acme" }]

lemma prLe_iff_triagePrecedes (a b : PRData) :
    prLe a b = true ↔ triagePrecedes a b := by
  simp only [prLe, prCompare, triagePrecedes, decide_eq_true_eq]
  cases hra : isReadyToBeMerged a <;> cases hrb : isReadyToBeMerged b <;>
    cases hba : isBlockedByOther a <;> cases hbb : isBlockedByOther b <;>
      simp <;> omega

lemma prLe_total (a b : PRData) : (prLe a b || prLe b a) = true := by
  simp only [prLe, prCompare, Bool.or_eq_true, decide_eq_true_eq]
  cases hra : isReadyToBeMerged a <;> cases hrb : isReadyToBeMerged b <;>
    cases hba : isBlockedByOther a <;> cases hbb : isBlockedByOther b <;>
      simp <;> omega

lemma prLe_trans (a b c : PRData) :
    prLe a b = true → prLe b c = true → prLe a c = true := by
  simp only [prLe, prCompare, decide_eq_true_eq]
  cases hra : isReadyToBeMerged a <;> cases hrb : isReadyToBeMerged b <;>
    cases hrc : isReadyToBeMerged c <;>
    cases hba : isBlockedByOther a <;> cases hbb : isBlockedByOther b <;>
    cases hbc : isBlockedByOther c <;>
      simp <;> omega

/-- The collection loop keeps exactly the failure-conclusion check runs,
stripping the `rails-ci / ` prefix from each name. -/
lemma collectFailedChecks_eq_filter_map (runs : List CheckRun) :
    collectFailedChecks runs =
      (runs.filter fun cr => cr.conclusion = "failure").map fun cr =>
        { name := stripRailsCiPrefix cr.name, url := checkRunUrl cr } := by
  induction runs with
  | nil => rfl
  | cons cr rest ih =>
    by_cases h : cr.conclusion = "failure" <;>
      simp [collectFailedChecks, List.filter_cons, h, ih]

/-- The sequential re-run loop counts exactly the successful calls and
invokes each run once, in order. -/
lemma rerunLoop_spec (call : WorkflowRun → Bool) (rs : List WorkflowRun) :
    (rerunLoop call rs).1 = (rs.filter call).length ∧
      (rerunLoop call rs).2 = rs.map WorkflowRun.id := by
  induction rs with
  | nil => exact ⟨rfl, rfl⟩
  | cons run rest ih =>
    by_cases h : call run <;>
      simp [rerunLoop, List.filter_cons, h, ih.1, ih.2] <;> omega

/-- C1: the sort over a batch realises the three-tier priority order — in
the output, ready items precede non-ready items; at equal readiness a
blocked item never precedes an unblocked one; at equal readiness and
blockedness `updatedAt` is ascending (oldest first). In particular, for
A(ready, t1 = 200), B(ready, t2 = 100 < t1), C(not ready, not blocked,
t3 = 300) the output order is [B, A, C]. -/
theorem c1_sort_three_tier_priority :
    (∀ prs : List PRData, (sortPullRequests prs).Pairwise triagePrecedes) ∧
      sortPullRequests [prA, prB, prC] = [prB, prA, prC] := by
  constructor
  · intro prs
    have h := List.sorted_mergeSort prLe_trans prLe_total prs
    exact h.imp fun hab => (prLe_iff_triagePrecedes _ _).1 hab
  · simp [sortPullRequests, List.mergeSort, prLe, prCompare, isReadyToBeMerged,
      isBlockedByOther, isNotDraft, hasBeenApproved, hasChangesRequested,
      hasNoConflicts, waitingForReview, prA, prB, prC, basePR]

/-- C3: `hasBeenApproved()` holds exactly when the API-provided
`reviewDecision` is `APPROVED` and `hasChangesRequested()` is false, and
its value is unchanged under any replacement of the raw review list (and of
the assignee list), i.e. it is not re-derived from the reviews. -/
theorem c3_hasBeenApproved_from_reviewDecision (pr : PRData) :
    (hasBeenApproved pr =
      ((pr.reviewDecision = some "APPROVED") && !hasChangesRequested pr)) ∧
    ∀ (rs : List Review) (logins : List String),
      hasBeenApproved { pr with reviews := rs, assignees := logins } =
        hasBeenApproved pr := by
  refine ⟨?_, fun rs logins => rfl⟩
  by_cases h : pr.reviewDecision = some "CHANGES_REQUESTED" <;>
    simp [hasBeenApproved, hasChangesRequested, h]

/-- C5: every draft has `isReadyToBeMerged()` and `isBlockedByOther()`
false, and every record with mergeability `CONFLICTING` has
`isReadyToBeMerged()` false regardless of its review decision. -/
theorem c5_draft_and_conflicting_never_ready (pr : PRData) :
    (pr.isDraft = true →
      isReadyToBeMerged pr = false ∧ isBlockedByOther pr = false) ∧
    (pr.mergeable = "CONFLICTING" → isReadyToBeMerged pr = false) := by
  constructor
  · intro h
    simp [isReadyToBeMerged, isBlockedByOther, isNotDraft, h]
  · intro h
    simp [isReadyToBeMerged, hasNoConflicts, h]

theorem c5_draft_and_conflicting_never_ready_witness :
    draftConflictingPR.isDraft = true ∧
    draftConflictingPR.mergeable = "CONFLICTING" ∧
    (isReadyToBeMerged draftConflictingPR = false ∧
      isBlockedByOther draftConflictingPR = false) ∧
    isReadyToBeMerged draftConflictingPR = false :=
  ⟨rfl, rfl,
    (c5_draft_and_conflicting_never_ready draftConflictingPR).1 rfl,
    (c5_draft_and_conflicting_never_ready draftConflictingPR).2 rfl⟩

/-- C9: the two historical approval variants are not equivalent — on a
record whose only approval review is authored by an assignee and whose
`reviewDecision` is `APPROVED`, the legacy review-list re-derivation
returns false while the current API-decision variant returns true. -/
theorem c9_legacy_and_current_approval_differ :
    assigneeApprovedPR.reviewDecision = some "APPROVED" ∧
    assigneeApprovedPR.reviews = [{ state := "APPROVED", authorLogin := "alice" }] ∧
    assigneeApprovedPR.assignees = ["alice"] ∧
    hasBeenApprovedLegacy assigneeApprovedPR = false ∧
    hasBeenApproved assigneeApprovedPR = true := by
  refine ⟨rfl, rfl, rfl, ?_, ?_⟩ <;> decide

/-- C2: CI enrichment maps the rollup state SUCCESS ↦ SUCCESS, PENDING ↦
PENDING, FAILURE ↦ FAILURE, ERROR ↦ ERROR and anything else (including a
missing rollup or no commit) ↦ NONE; the secondary check-run fetch is
issued exactly when the mapped status is FAILURE or ERROR; the
failed-checks list keeps exactly the failure-conclusion check runs with
the `rails-ci / ` prefix stripped; and the concrete FAILURE-rollup record
with check runs `rails-ci / lint` (failure) and `build` (success) yields
status FAILURE with the single failed check `lint`. -/
theorem c2_ci_enrichment_mapping :
    (∀ (pr : PRData) (resp : Except String (Option (List CheckRun)))
        (sha rollup : String),
      latestCommitSha pr = some sha → getStatusCheckRollup pr = some rollup →
        ((loadCIStatusForPR pr resp).1.state =
          if rollup = "SUCCESS" then CIState.SUCCESS
          else if rollup = "FAILURE" then CIState.FAILURE
          else if rollup = "ERROR" then CIState.ERROR
          else if rollup = "PENDING" then CIState.PENDING
          else CIState.NONE) ∧
        ((loadCIStatusForPR pr resp).2 =
          (rollup = "FAILURE" || rollup = "ERROR"))) ∧
    (∀ (pr : PRData) (resp : Except String (Option (List CheckRun))),
      latestCommitSha pr = none ∨ getStatusCheckRollup pr = none →
        (loadCIStatusForPR pr resp).1.state = CIState.NONE ∧
          (loadCIStatusForPR pr resp).2 = false) ∧
    (∀ runs : List CheckRun,
      fetchFailedChecks (Except.ok (some runs)) =
        (runs.filter fun cr => cr.conclusion = "failure").map fun cr =>
          { name := stripRailsCiPrefix cr.name, url := checkRunUrl cr }) ∧
    loadCIStatusForPR examplePR exampleResp =
      ({ state := CIState.FAILURE, cssClass := "error",
         failedChecks := [{ name := "lint", url := "https://ci.example/lint" }] },
       true) := by
  refine ⟨?_, ?_, ?_, ?_⟩
  · intro pr resp sha rollup h1 h2
    simp only [loadCIStatusForPR, h1, h2]
    by_cases hS : rollup = "SUCCESS" <;> by_cases hF : rollup = "FAILURE" <;>
      by_cases hE : rollup = "ERROR" <;> by_cases hP : rollup = "PENDING" <;>
        simp_all
  · intro pr resp h
    rcases h with h | h <;>
      cases hsha : latestCommitSha pr <;>
        simp_all [loadCIStatusForPR]
  · intro runs
    exact collectFailedChecks_eq_filter_map runs
  · decide

theorem c2_ci_enrichment_mapping_witness :
    latestCommitSha examplePR = some "abc123" ∧
    getStatusCheckRollup examplePR = some "FAILURE" ∧
    ((loadCIStatusForPR examplePR exampleResp).1.state =
      if ("FAILURE" : String) = "SUCCESS" then CIState.SUCCESS
      else if ("FAILURE" : String) = "FAILURE" then CIState.FAILURE
      else if ("FAILURE" : String) = "ERROR" then CIState.ERROR
      else if ("FAILURE" : String) = "PENDING" then CIState.PENDING
      else CIState.NONE) ∧
    ((loadCIStatusForPR examplePR exampleResp).2 =
      (("FAILURE" : String) = "FAILURE" || ("FAILURE" : String) = "ERROR")) ∧
    (latestCommitSha basePR = none ∨ getStatusCheckRollup basePR = none) ∧
    ((loadCIStatusForPR basePR exampleResp).1.state = CIState.NONE ∧
      (loadCIStatusForPR basePR exampleResp).2 = false) :=
  ⟨rfl, rfl,
    (c2_ci_enrichment_mapping.1 examplePR exampleResp "abc123" "FAILURE" rfl rfl).1,
    (c2_ci_enrichment_mapping.1 examplePR exampleResp "abc123" "FAILURE" rfl rfl).2,
    Or.inl rfl,
    c2_ci_enrichment_mapping.2.1 basePR exampleResp (Or.inl rfl)⟩

/-- C4 counterexample: `hasBeenApproved()` is not draft-guarded — on a
draft record whose `reviewDecision` is `APPROVED` it returns true, so the
claim that a draft is never classified approved via `hasBeenApproved()`
fails as stated. -/
theorem c4_draft_hasBeenApproved_counterexample :
    draftApprovedPR.isDraft = true ∧ hasBeenApproved draftApprovedPR = true := by
  refine ⟨rfl, ?_⟩
  decide

/-- C4 (amended): for every draft record, the rendered status cell is the
draft badge — never the approved or changes-requested classification — and
`isReadyToBeMerged()` / `isBlockedByOther()` are both false, regardless of
the review decision; `hasBeenApproved()` itself, however, is not
draft-guarded. -/
theorem c4_draft_never_classified (pr : PRData) (h : pr.isDraft = true) :
    createStatusCell pr = StatusBadge.draft ∧
      isReadyToBeMerged pr = false ∧ isBlockedByOther pr = false := by
  refine ⟨?_, ?_, ?_⟩ <;>
    simp [createStatusCell, isReadyToBeMerged, isBlockedByOther, isNotDraft, h]

theorem c4_draft_never_classified_witness :
    draftApprovedPR.isDraft = true ∧
      (createStatusCell draftApprovedPR = StatusBadge.draft ∧
        isReadyToBeMerged draftApprovedPR = false ∧
        isBlockedByOther draftApprovedPR = false) :=
  ⟨rfl, c4_draft_never_classified draftApprovedPR rfl⟩

/-- C6: when the targeted check-run call for one pull request fails, the
failed-checks helper returns `[]`, the item's CI cell degrades to the error
display class with empty failed checks (its state staying in the
FAILURE/ERROR pair), and every item of a batch is classified from its own
record and its own response alone, so one item's failure never aborts the
siblings. -/
theorem c6_fetch_error_isolated_degradation (pr : PRData) (e : String)
    (sha rollup : String) (h1 : latestCommitSha pr = some sha)
    (h2 : getStatusCheckRollup pr = some rollup)
    (h3 : rollup = "FAILURE" ∨ rollup = "ERROR") :
    fetchFailedChecks (Except.error e) = [] ∧
    ((loadCIStatusForPR pr (Except.error e)).1.cssClass = "error" ∧
      (loadCIStatusForPR pr (Except.error e)).1.failedChecks = [] ∧
      ((loadCIStatusForPR pr (Except.error e)).1.state = CIState.FAILURE ∨
        (loadCIStatusForPR pr (Except.error e)).1.state = CIState.ERROR)) ∧
    ∀ (batch : List (PRData × Except String (Option (List CheckRun))))
      (i : Nat) (item : PRData × Except String (Option (List CheckRun))),
      batch[i]? = some item →
        (enrichBatch batch).length = batch.length ∧
          (enrichBatch batch)[i]? = some (loadCIStatusForPR item.1 item.2).1 := by
  refine ⟨rfl, ?_, ?_⟩
  · simp only [loadCIStatusForPR, h1, h2]
    rcases h3 with h | h <;> simp [h, fetchFailedChecks]
  · intro batch i item hitem
    refine ⟨List.length_map _ _, ?_⟩
    simp [enrichBatch, List.getElem?_map, hitem]

theorem c6_fetch_error_isolated_degradation_witness :
    latestCommitSha examplePR = some "abc123" ∧
    getStatusCheckRollup examplePR = some "FAILURE" ∧
    (("FAILURE" : String) = "FAILURE" ∨ ("FAILURE" : String) = "ERROR") ∧
    fetchFailedChecks (Except.error "network error") = [] ∧
    ((loadCIStatusForPR examplePR (Except.error "network error")).1.cssClass
        = "error" ∧
      (loadCIStatusForPR examplePR (Except.error "network error")).1.failedChecks
        = [] ∧
      ((loadCIStatusForPR examplePR (Except.error "network error")).1.state
          = CIState.FAILURE ∨
        (loadCIStatusForPR examplePR (Except.error "network error")).1.state
          = CIState.ERROR)) :=
  ⟨rfl, rfl, Or.inl rfl,
    (c6_fetch_error_isolated_degradation examplePR "network error" "abc123"
      "FAILURE" rfl rfl (Or.inl rfl)).1,
    (c6_fetch_error_isolated_degradation examplePR "network error" "abc123"
      "FAILURE" rfl rfl (Or.inl rfl)).2.1⟩

/-- C7: the re-run command invokes the re-run call once per workflow run
with conclusion failure or cancelled, in listing order; the success count
is the number of successful re-run calls; whenever K of the N ≥ 1 matching
runs succeed with K < N the report is the pair (K, N) rather than a
boolean; and for three failed runs of which two re-run successfully the
report is (2, 3) with button text "⚠️ 2/3 succeeded". -/
theorem c7_rerun_reports_fraction (workflowRuns : List WorkflowRun)
    (call : WorkflowRun → Bool) :
    ((handleRerunFailedJobs workflowRuns call).2 =
      (workflowRuns.filter fun run =>
        run.conclusion = "failure" || run.conclusion = "cancelled").map
          WorkflowRun.id) ∧
    (∀ rs : List WorkflowRun, (rerunLoop call rs).1 = (rs.filter call).length) ∧
    (∀ N K,
      N = (workflowRuns.filter fun run =>
        run.conclusion = "failure" || run.conclusion = "cancelled").length →
      K = ((workflowRuns.filter fun run =>
        run.conclusion = "failure" || run.conclusion = "cancelled").filter
          call).length →
      0 < N → K < N →
      (handleRerunFailedJobs workflowRuns call).1 = RerunReport.someFailed K N) ∧
    ((handleRerunFailedJobs exampleRuns exampleRerunCall).1 =
        RerunReport.someFailed 2 3 ∧
      rerunButtonText (handleRerunFailedJobs exampleRuns exampleRerunCall).1 =
        "⚠️ 2/3 succeeded") := by
  refine ⟨?_, fun rs => (rerunLoop_spec call rs).1, ?_, ?_, ?_⟩
  · by_cases h : (workflowRuns.filter fun run =>
        run.conclusion = "failure" || run.conclusion = "cancelled").length = 0
    · rw [List.length_eq_zero] at h
      simp [handleRerunFailedJobs, h]
    · simp only [handleRerunFailedJobs, if_neg h]
      split <;> exact (rerunLoop_spec call _).2
  · intro N K hN hK hNpos hKN
    have hcount := (rerunLoop_spec call (workflowRuns.filter fun run =>
      run.conclusion = "failure" || run.conclusion = "cancelled")).1
    simp only [handleRerunFailedJobs]
    rw [if_neg (by omega), hcount, if_neg (by omega)]
    rw [hK, hN]
  · decide
  · decide

theorem c7_rerun_reports_fraction_witness :
    (3 = (exampleRuns.filter fun run =>
      run.conclusion = "failure" || run.conclusion = "cancelled").length) ∧
    (2 = ((exampleRuns.filter fun run =>
      run.conclusion = "failure" || run.conclusion = "cancelled").filter
        exampleRerunCall).length) ∧
    0 < 3 ∧ 2 < 3 ∧
    (handleRerunFailedJobs exampleRuns exampleRerunCall).1 =
      RerunReport.someFailed 2 3 :=
  ⟨by decide, by decide, by decide, by decide,
    (c7_rerun_reports_fraction exampleRuns exampleRerunCall).2.2.1 3 2
      (by decide) (by decide) (by decide) (by decide)⟩

/-- C8: writing the organization cache at `writeTime` and reading it more
than 24 hours later misses and deletes the entry from the store (even when
the subsequent live fetch fails, the entry is gone); reading within the
TTL returns the cached payload with the entry intact. -/
theorem c8_org_cache_ttl (orgs : List Org) (writeTime readTime : Nat) :
    (writeTime + cacheTTL < readTime →
      getCachedOrganizations (some (cacheOrganizations orgs writeTime)) readTime
          = (none, none) ∧
      ∀ e : String,
        (getUserOrganizations (some (cacheOrganizations orgs writeTime))
          readTime (Except.error e)).2 = none) ∧
    (readTime < writeTime + cacheTTL →
      getCachedOrganizations (some (cacheOrganizations orgs writeTime)) readTime
        = (some orgs, some (cacheOrganizations orgs writeTime))) := by
  constructor
  · intro h
    have hmiss : getCachedOrganizations
        (some (cacheOrganizations orgs writeTime)) readTime = (none, none) := by
      simp only [getCachedOrganizations, cacheOrganizations]
      rw [if_neg (by omega)]
    refine ⟨hmiss, fun e => ?_⟩
    simp [getUserOrganizations, hmiss]
  · intro h
    simp only [getCachedOrganizations, cacheOrganizations]
    rw [if_pos (by omega)]

theorem c8_org_cache_ttl_witness :
    (0 + cacheTTL < 25 * 60 * 60 * 1000 ∧
      (getCachedOrganizations (some (cacheOrganizations acmeOrgs 0))
          (25 * 60 * 60 * 1000) = (none, none) ∧
        ∀ e : String,
          (getUserOrganizations (some (cacheOrganizations acmeOrgs 0))
            (25 * 60 * 60 * 1000) (Except.error e)).2 = none)) ∧
    (1000 < 0 + cacheTTL ∧
      getCachedOrganizations (some (cacheOrganizations acmeOrgs 0)) 1000
        = (some acmeOrgs, some (cacheOrganizations acmeOrgs 0))) :=
  ⟨⟨by decide,
    (c8_org_cache_ttl acmeOrgs 0 (25 * 60 * 60 * 1000)).1 (by decide)⟩,
   ⟨by decide,
    (c8_org_cache_ttl acmeOrgs 0 1000).2 (by decide)⟩⟩

/-- C10: readiness and blocked-by-other are disjoint for every record —
`isReadyToBeMerged()` requires `hasBeenApproved()` while
`isBlockedByOther()` requires `waitingForReview()`, which requires its
negation — so the sort's first two priority buckets never overlap. -/
theorem c10_ready_and_blocked_disjoint (pr : PRData) :
    (isReadyToBeMerged pr && isBlockedByOther pr) = false := by
  cases h : hasBeenApproved pr <;>
    simp [isReadyToBeMerged, isBlockedByOther, waitingForReview, h]

end CopilotTower
